import Mathlib

/-!
Verification development for the Maverick-MCP gateway core.

The two gateway variants of the repository, `mcp-gateway/gateway.py` (HTTP
variant, namespace `GW`) and `mcp-stdio-gateway.py` (STDIO variant, namespace
`SD`), are shallowly embedded as pure state-passing functions.  The mutable
state of a gateway run (the `DockerBridge.active_processes` dict, the set of
launched subprocesses, every frame written to a subprocess stdin, the
remaining stdout script of each subprocess, and the SIGTERMs issued) is
collected in a `World` record.  Subprocess behaviour is an environment input:
each spawned process is given a stdout "script", a list of lines where
`Option.some j` is a line that decodes to the JSON value `j` and
`Option.none` is a line that fails JSON decoding; an exhausted script models
EOF (Python `readline` returning the empty string).  `json.loads` applied to
the caller-supplied `arguments` string is abstracted as a parameter
`loads : String → Option Json` (`Option.none` models `json.JSONDecodeError`).

Both gateway variants run their tool bodies as `async def` coroutines that
contain no `await` expression, on a single-threaded asyncio event loop, so
each external call executes atomically; concurrent external callers are
therefore modelled as an arbitrary sequential interleaving of whole calls.
-/

/-- JSON values, as produced by `json.loads` / consumed by `json.dumps`. -/
inductive Json where
  | null : Json
  | bool (b : Bool) : Json
  | num (n : Int) : Json
  | str (s : String) : Json
  | arr (elems : List Json) : Json
  | obj (fields : List (String × Json)) : Json

/-- Field lookup in a list of JSON object fields (first match wins). -/
def jfieldLookup : List (String × Json) → String → Option Json
  | [], _ => Option.none
  | (k, v) :: rest, key => if k = key then Option.some v else jfieldLookup rest key

/-- Python `response.get(key)` / `key in response` on a JSON object; a
non-object has no fields. -/
def Json.getField : Json → String → Option Json
  | Json.obj fields, key => jfieldLookup fields key
  | _, _ => Option.none

/-- Python truthiness of a JSON value, as used by the `arguments or \x7b\x7d`
idiom in both `execute_tool` variants. -/
def Json.isFalsy : Json → Bool
  | Json.null => true
  | Json.bool b => !b
  | Json.num n => n == 0
  | Json.str s => s.isEmpty
  | Json.arr elems => elems.isEmpty
  | Json.obj fields => fields.isEmpty

/-- Python dict lookup on an insertion-ordered association list. -/
def alookup [DecidableEq κ] : List (κ × α) → κ → Option α
  | [], _ => Option.none
  | (k, v) :: rest, key => if k = key then Option.some v else alookup rest key

/-- Python dict assignment `d[k] = v`: replace in place if the key is
present, else append (insertion order preserved). -/
def alistInsert [DecidableEq κ] : List (κ × α) → κ → α → List (κ × α)
  | [], key, v => [(key, v)]
  | (k, w) :: rest, key, v =>
    if k = key then (key, v) :: rest else (k, w) :: alistInsert rest key v

/-- Python `del d[k]`: drop the entry for the key (first occurrence). -/
def alistErase [DecidableEq κ] : List (κ × α) → κ → List (κ × α)
  | [], _ => []
  | (k, w) :: rest, key =>
    if k = key then rest else (k, w) :: alistErase rest key

/-- In-place mutation of the object stored under a key (Python objects are
references: mutating the object seen by a caller mutates the dict entry). -/
def alistUpdate [DecidableEq κ] : List (κ × α) → κ → (α → α) → List (κ × α)
  | [], _, _ => []
  | (k, v) :: rest, key, f =>
    if k = key then (k, f v) :: alistUpdate rest key f
    else (k, v) :: alistUpdate rest key f

/-- The `ServerProcess` dataclass shared by both gateway variants: an opaque
process handle (modelled by a pid), the logical identifier, the
`datetime.now()` creation timestamp and the `time.time()` last-used
timestamp (both modelled as ticks of the world clock). -/
structure ServerProcess where
  pid : Nat
  server_id : String
  started_at : Nat
  last_used : Nat
deriving Repr, DecidableEq

/-- One registry entry (`servers.yaml` value): image reference, command
vector, environment mapping and optional idle timeout. -/
structure Config where
  image : String
  command : List String
  environment : List (String × String)
  idle_timeout : Option Nat
deriving Repr

/-- The mutable state of one gateway run plus the observable effect traces:
`active` is `DockerBridge.active_processes`; `launched` records every
`subprocess.Popen` call (pid and argv); `stdoutOf` holds each subprocess
remaining stdout script; `wire` records every frame written to a subprocess
stdin, in order; `sigterms` records every `process.terminate()` call. -/
structure World where
  active : List (String × ServerProcess)
  nextPid : Nat
  launched : List (Nat × List String)
  stdoutOf : List (Nat × List (Option Json))
  wire : List (Nat × Json)
  sigterms : List Nat
  clock : Nat

/-- The distinct raise sites and failure outcomes of the gateway code. -/
inductive GErr where
  | launchError (server_id : String)
  | unknownServer (server_id : String)
  | invalidJsonArgs (s : String)
  | argsTypeError
  | noResponse (server_id : String)
  | decodeError (server_id : String)
  | toolError (e : Json)
  | waitTimeout (server_id : String)

/-- The caller-supplied `arguments` value of `execute_tool`
(`Optional[Any]`): Python `None`, a dict, a string, or any other Python
value (list, number, ...). -/
inductive Args where
  | none : Args
  | dict (fields : List (String × Json)) : Args
  | str (s : String) : Args
  | other : Args

/-- The `docker run` argv built by `spawn_container` (both variants, lines
41 to 48). -/
def dockerCmd (cfg : Config) : List String :=
  ["docker", "run", "-i", "--rm"]
    ++ (cfg.environment.map (fun p => ["-e", p.1 ++ "=" ++ p.2])).flatten
    ++ [cfg.image] ++ cfg.command

/-- The tools/call request built by `execute_tool` (both variants). -/
def mkToolRequest (tool_name : String) (args : Json) (rid : Nat) : Json :=
  Json.obj [("jsonrpc", Json.str "2.0"), ("method", Json.str "tools/call"),
    ("params", Json.obj [("name", Json.str tool_name), ("arguments", args)]),
    ("id", Json.num (Int.ofNat rid))]

/-- Python `arguments or \x7b\x7d` applied to the processed arguments value:
`None` and every falsy JSON value become the empty object. -/
def pyOrEmpty : Option Json → Json
  | Option.none => Json.obj []
  | Option.some j => if j.isFalsy then Json.obj [] else j

/-- Centralised argument processing of `execute_tool` (identical in both
variants, gateway.py lines 189 to 197): `None` passes through, a string is
parsed with `json.loads` (decode failure raises), a dict passes through, and
any other type raises. -/
def processArgs (loads : String → Option Json) : Args → Except GErr (Option Json)
  | Args.none => Except.ok Option.none
  | Args.str s =>
    match loads s with
    | Option.none => Except.error (GErr.invalidJsonArgs s)
    | Option.some j => Except.ok (Option.some j)
  | Args.dict fields => Except.ok (Option.some (Json.obj fields))
  | Args.other => Except.error GErr.argsTypeError

namespace GW

/-- The initialize request literal of `_initialize_connection`
(gateway.py lines 77 to 89). -/
def initMessage : Json :=
  Json.obj [("jsonrpc", Json.str "2.0"), ("method", Json.str "initialize"),
    ("params", Json.obj [("protocolVersion", Json.str "2024-11-05"),
      ("capabilities", Json.obj []),
      ("clientInfo", Json.obj [("name", Json.str "mcp-gateway"),
        ("version", Json.str "1.0.0")])]),
    ("id", Json.num 1)]

/-- The initialized notification literal (gateway.py lines 95 to 99). -/
def initializedMessage : Json :=
  Json.obj [("jsonrpc", Json.str "2.0"),
    ("method", Json.str "notifications/initialized"),
    ("params", Json.obj [])]

/-- `DockerBridge.send_message` (gateway.py lines 103 to 121): set the entry
last-used timestamp, write the frame, read one line; an empty read (EOF)
raises, a line that fails `json.loads` raises, otherwise the decoded line is
returned whatever its contents. -/
def send_message (w : World) (sp : ServerProcess) (message : Json) :
    World × Except GErr Json :=
  let w1 : World := { w with
    active := alistUpdate w.active sp.server_id
      (fun p => { p with last_used := w.clock }) }
  let w2 : World := { w1 with wire := w1.wire ++ [(sp.pid, message)] }
  match alookup w2.stdoutOf sp.pid with
  | Option.none => (w2, Except.error (GErr.noResponse sp.server_id))
  | Option.some [] => (w2, Except.error (GErr.noResponse sp.server_id))
  | Option.some (line :: rest) =>
    let w3 : World := { w2 with stdoutOf := alistInsert w2.stdoutOf sp.pid rest }
    match line with
    | Option.none => (w3, Except.error (GErr.decodeError sp.server_id))
    | Option.some j => (w3, Except.ok j)

/-- `DockerBridge._initialize_connection` (gateway.py lines 75 to 101): send
the initialize request and read a response (the response is only logged,
never validated), then write the initialized notification. -/
def initialize_connection (w : World) (sp : ServerProcess) :
    World × Except GErr Unit :=
  match send_message w sp initMessage with
  | (w1, Except.error e) => (w1, Except.error e)
  | (w1, Except.ok _resp) =>
    ({ w1 with wire := w1.wire ++ [(sp.pid, initializedMessage)] }, Except.ok ())

/-- `DockerBridge.spawn_container` (gateway.py lines 35 to 73): `Popen` the
docker command (`launchOk = false` models the spawn raising), build the
`ServerProcess`, insert it into `active_processes`, then run the handshake.
The insertion happens before the handshake and is not undone on handshake
failure. -/
def spawn_container (w : World) (server_id : String) (cfg : Config)
    (launchOk : Bool) (script : List (Option Json)) :
    World × Except GErr ServerProcess :=
  if launchOk then
    let pid := w.nextPid
    let w1 : World := { w with
      nextPid := pid + 1,
      launched := w.launched ++ [(pid, dockerCmd cfg)],
      stdoutOf := alistInsert w.stdoutOf pid script }
    let sp : ServerProcess :=
      { pid := pid, server_id := server_id, started_at := w.clock,
        last_used := w.clock }
    let w2 : World := { w1 with active := alistInsert w1.active server_id sp }
    match initialize_connection w2 sp with
    | (w3, Except.error e) => (w3, Except.error e)
    | (w3, Except.ok _) => (w3, Except.ok sp)
  else (w, Except.error (GErr.launchError server_id))

/-- `DockerBridge.get_or_spawn` (gateway.py lines 132 to 136): spawn if the
identifier is absent, otherwise return the stored entry (this variant does
not touch the last-used timestamp here). -/
def get_or_spawn (w : World) (server_id : String) (cfg : Config)
    (launchOk : Bool) (script : List (Option Json)) :
    World × Except GErr ServerProcess :=
  match alookup w.active server_id with
  | Option.none => spawn_container w server_id cfg launchOk script
  | Option.some sp => (w, Except.ok sp)

/-- `DockerBridge.terminate_container` (gateway.py lines 123 to 130): if the
identifier is active, `terminate()` the process, `wait(timeout=5)` (the
environment `exits pid` tells whether the process exits within the wait; a
timeout raises `TimeoutExpired`, skipping the deletion), then delete the
entry. Absent identifiers are a silent no-op. -/
def terminate_container (w : World) (server_id : String) (exits : Nat → Bool) :
    World × Except GErr Unit :=
  match alookup w.active server_id with
  | Option.none => (w, Except.ok ())
  | Option.some sp =>
    let w1 : World := { w with sigterms := w.sigterms ++ [sp.pid] }
    if exits sp.pid then
      ({ w1 with active := alistErase w1.active server_id }, Except.ok ())
    else (w1, Except.error (GErr.waitTimeout server_id))

/-- The `execute_tool` gateway tool (gateway.py lines 181 to 220): registry
check, argument processing, `get_or_spawn`, request construction with the
incremented request counter, `send_message`, then error/result splitting on
the response. -/
def execute_tool (registry : List (String × Config)) (ctr : Nat) (w : World)
    (server_id tool_name : String) (arguments : Args)
    (loads : String → Option Json) (launchOk : Bool)
    (script : List (Option Json)) : World × Nat × Except GErr Json :=
  match alookup registry server_id with
  | Option.none => (w, ctr, Except.error (GErr.unknownServer server_id))
  | Option.some cfg =>
    match processArgs loads arguments with
    | Except.error e => (w, ctr, Except.error e)
    | Except.ok argOpt =>
      match get_or_spawn w server_id cfg launchOk script with
      | (w1, Except.error e) => (w1, ctr, Except.error e)
      | (w1, Except.ok sp) =>
        let ctr1 := ctr + 1
        let request := mkToolRequest tool_name (pyOrEmpty argOpt) ctr1
        match send_message w1 sp request with
        | (w2, Except.error e) => (w2, ctr1, Except.error e)
        | (w2, Except.ok response) =>
          match Json.getField response "error" with
          | Option.some e => (w2, ctr1, Except.error (GErr.toolError e))
          | Option.none =>
            (w2, ctr1,
              Except.ok ((Json.getField response "result").getD (Json.obj [])))

/-- The `stop_server` gateway tool (gateway.py lines 237 to 242): terminate
and report "stopped" when the identifier is active, otherwise report
"not_running". -/
def stop_server (w : World) (server_id : String) (exits : Nat → Bool) :
    World × Except GErr Json :=
  match alookup w.active server_id with
  | Option.some _ =>
    match terminate_container w server_id exits with
    | (w1, Except.error e) => (w1, Except.error e)
    | (w1, Except.ok _) =>
      (w1, Except.ok (Json.obj [("status", Json.str "stopped"),
        ("server_id", Json.str server_id)]))
  | Option.none =>
    (w, Except.ok (Json.obj [("status", Json.str "not_running"),
      ("server_id", Json.str server_id)]))

/-- The idle timeout of a registry entry with the 300 second default
(`config.get("idle_timeout", 300)`, gateway.py line 253). -/
def cfgIdleTimeout (cfg : Config) : Nat := cfg.idle_timeout.getD 300

/-- Eligibility test of one pool entry in `idle_monitor` (gateway.py lines
251 to 256): registry miss behaves like an empty config (timeout 300). -/
def idleEligible (registry : List (String × Config)) (now : Nat)
    (entry : String × ServerProcess) : Bool :=
  let timeout := match alookup registry entry.1 with
    | Option.some cfg => cfgIdleTimeout cfg
    | Option.none => 300
  decide (now - entry.2.last_used > timeout)

/-- The termination loop of one `idle_monitor` tick (gateway.py lines 258 to
263): the whole tick body sits in a single try/except, so the first
exception raised by `terminate_container` aborts the remaining iterations of
that tick (the exception is logged and swallowed at tick level). -/
def runTerminations (exits : Nat → Bool) : List String → World → World
  | [], w => w
  | server_id :: rest, w =>
    match terminate_container w server_id exits with
    | (w1, Except.ok _) => runTerminations exits rest w1
    | (w1, Except.error _) => w1

/-- One tick of `MCPGateway.idle_monitor` (gateway.py lines 244 to 265):
collect the identifiers whose idle duration exceeds their timeout, then
terminate them in pool order under the tick-level exception handler. -/
def idle_monitor_tick (registry : List (String × Config)) (w : World)
    (now : Nat) (exits : Nat → Bool) : World :=
  let servers_to_stop := (w.active.filter (idleEligible registry now)).map
    (fun entry => entry.1)
  runTerminations exits servers_to_stop w

/-- N whole `get_or_spawn` calls for one identifier, executed back to back:
on the single-threaded asyncio event loop the call bodies contain no await
point, so any set of N concurrent external callers executes as such a
sequence. -/
def runCalls (server_id : String) (cfg : Config) (launchOk : Bool)
    (script : List (Option Json)) : Nat → World → World × List (Except GErr ServerProcess)
  | 0, w => (w, [])
  | Nat.succ n, w =>
    match get_or_spawn w server_id cfg launchOk script with
    | (w1, r) =>
      match runCalls server_id cfg launchOk script n w1 with
      | (w2, rs) => (w2, r :: rs)

end GW

namespace SD

/-- The synthesized error response of the STDIO variant
(mcp-stdio-gateway.py lines 96 and 100): a JSON-RPC error object with code
-32603 echoing the request id (`message.get("id")`, `None` when absent). -/
def errResponse (msgId : Option Json) (message : String) : Json :=
  Json.obj [("jsonrpc", Json.str "2.0"), ("id", msgId.getD Json.null),
    ("error", Json.obj [("code", Json.num (-32603)),
      ("message", Json.str message)])]

/-- `DockerBridge.spawn_container` of the STDIO variant
(mcp-stdio-gateway.py lines 35 to 73): `Popen` (a spawn failure is logged
and re-raised before any entry exists), build the `ServerProcess`, insert it
into `active_processes` and return it.  This variant performs no handshake
at all. -/
def spawn_container (w : World) (server_id : String) (cfg : Config)
    (launchOk : Bool) (script : List (Option Json)) :
    World × Except GErr ServerProcess :=
  if launchOk then
    let pid := w.nextPid
    let sp : ServerProcess :=
      { pid := pid, server_id := server_id, started_at := w.clock,
        last_used := w.clock }
    let w1 : World := { w with
      nextPid := pid + 1,
      launched := w.launched ++ [(pid, dockerCmd cfg)],
      stdoutOf := alistInsert w.stdoutOf pid script,
      active := alistInsert w.active server_id sp }
    (w1, Except.ok sp)
  else (w, Except.error (GErr.launchError server_id))

/-- `DockerBridge.get_or_spawn` of the STDIO variant (mcp-stdio-gateway.py
lines 75 to 82): on a hit, refresh the last-used timestamp of the stored
entry and return it; on a miss, spawn. -/
def get_or_spawn (w : World) (server_id : String) (cfg : Config)
    (launchOk : Bool) (script : List (Option Json)) :
    World × Except GErr ServerProcess :=
  match alookup w.active server_id with
  | Option.some sp =>
    ({ w with active := (alistUpdate w.active server_id
        (fun p => { p with last_used := w.clock })) },
     Except.ok { sp with last_used := w.clock })
  | Option.none => spawn_container w server_id cfg launchOk script

/-- `DockerBridge.send_message` of the STDIO variant (mcp-stdio-gateway.py
lines 84 to 100): write the frame, read one line; an empty read (EOF) and
any exception (including a `json.loads` failure on a malformed line) are
swallowed and turned into a synthesized -32603 error response, so this
function is total and never raises. -/
def send_message (w : World) (sp : ServerProcess) (message : Json) :
    World × Json :=
  let w1 : World := { w with wire := w.wire ++ [(sp.pid, message)] }
  match alookup w1.stdoutOf sp.pid with
  | Option.none =>
    (w1, errResponse (Json.getField message "id") "No response from container")
  | Option.some [] =>
    (w1, errResponse (Json.getField message "id") "No response from container")
  | Option.some (line :: rest) =>
    let w2 : World := { w1 with stdoutOf := alistInsert w1.stdoutOf sp.pid rest }
    match line with
    | Option.none =>
      (w2, errResponse (Json.getField message "id") "json decode failure")
    | Option.some j => (w2, j)

/-- The `execute_tool` gateway tool of the STDIO variant
(mcp-stdio-gateway.py lines 145 to 184): registry check, argument
processing, `get_or_spawn`, request construction with the incremented
request counter, `send_message`, then error/result splitting on the
response. -/
def execute_tool (registry : List (String × Config)) (ctr : Nat) (w : World)
    (server_id tool_name : String) (arguments : Args)
    (loads : String → Option Json) (launchOk : Bool)
    (script : List (Option Json)) : World × Nat × Except GErr Json :=
  match alookup registry server_id with
  | Option.none => (w, ctr, Except.error (GErr.unknownServer server_id))
  | Option.some cfg =>
    match processArgs loads arguments with
    | Except.error e => (w, ctr, Except.error e)
    | Except.ok argOpt =>
      match get_or_spawn w server_id cfg launchOk script with
      | (w1, Except.error e) => (w1, ctr, Except.error e)
      | (w1, Except.ok sp) =>
        let ctr1 := ctr + 1
        let request := mkToolRequest tool_name (pyOrEmpty argOpt) ctr1
        match send_message w1 sp request with
        | (w2, response) =>
          match Json.getField response "error" with
          | Option.some e => (w2, ctr1, Except.error (GErr.toolError e))
          | Option.none =>
            (w2, ctr1,
              Except.ok ((Json.getField response "result").getD (Json.obj [])))

/-- N whole `get_or_spawn` calls of the STDIO variant for one identifier,
executed back to back: as in the HTTP variant, the call bodies contain no
await point, so on the single-threaded asyncio event loop any set of N
concurrent external callers executes as such a sequence. -/
def runCalls (server_id : String) (cfg : Config) (launchOk : Bool)
    (script : List (Option Json)) : Nat → World → World × List (Except GErr ServerProcess)
  | 0, w => (w, [])
  | Nat.succ n, w =>
    match get_or_spawn w server_id cfg launchOk script with
    | (w1, r) =>
      match runCalls server_id cfg launchOk script n w1 with
      | (w2, rs) => (w2, r :: rs)

end SD

/-! Concrete fixtures used to evaluate the embedded code on specific
inputs. -/

/-- A gateway that has just started: no active process, nothing launched. -/
def emptyWorld : World :=
  { active := [], nextPid := 0, launched := [], stdoutOf := [], wire := [],
    sigterms := [], clock := 0 }

/-- A minimal registry entry (no explicit idle timeout, so 300 applies). -/
def cfg0 : Config :=
  { image := "img", command := [], environment := [], idle_timeout := Option.none }

/-- A registry holding the single identifier "srv". -/
def reg0 : List (String × Config) := [("srv", cfg0)]

/-- The pool entry of an already spawned subprocess for "srv" (pid 0). -/
def sp0 : ServerProcess :=
  { pid := 0, server_id := "srv", started_at := 0, last_used := 0 }

/-- A world in which "srv" is active with pid 0 and the subprocess will emit
the given stdout script; the clock has advanced to 7. -/
def wReady (script : List (Option Json)) : World :=
  { active := [("srv", sp0)], nextPid := 1,
    launched := [(0, dockerCmd cfg0)], stdoutOf := [(0, script)], wire := [],
    sigterms := [], clock := 7 }

/-- A response frame carrying correlation id 999 (not matching any request
the gateway would send with counter 1000). -/
def resp999 : Json :=
  Json.obj [("jsonrpc", Json.str "2.0"), ("id", Json.num 999),
    ("result", Json.str "spoofed")]

/-- Pool entry "a" (pid 0), idle since tick 0. -/
def spA : ServerProcess :=
  { pid := 0, server_id := "a", started_at := 0, last_used := 0 }

/-- Pool entry "b" (pid 1), idle since tick 0. -/
def spB : ServerProcess :=
  { pid := 1, server_id := "b", started_at := 0, last_used := 0 }

/-- A world with the two idle entries "a" and "b" at clock 1000. -/
def wAB : World :=
  { active := [("a", spA), ("b", spB)], nextPid := 2,
    launched := [(0, dockerCmd cfg0), (1, dockerCmd cfg0)], stdoutOf := [],
    wire := [], sigterms := [], clock := 1000 }

/-- A registry holding "a" and "b" with default idle timeouts. -/
def reg2 : List (String × Config) := [("a", cfg0), ("b", cfg0)]

/-- A `json.loads` stand-in for runs whose argument strings are never
parsed (or never parse). -/
def loadsNone : String → Option Json := fun _ => Option.none

/-- An application-level JSON-RPC error response with code -32601, as a
subprocess stub would send for an unknown tool. -/
def respErr : Json :=
  Json.obj [("jsonrpc", Json.str "2.0"), ("id", Json.num 1001),
    ("error", Json.obj [("code", Json.num (-32601)),
      ("message", Json.str "unknown tool")])]

/-! Association-list lemmas (Python dict semantics). -/

theorem alookup_alistInsert_self [DecidableEq κ] (l : List (κ × α)) (k : κ)
    (v : α) : alookup (alistInsert l k v) k = Option.some v := by
  induction l with
  | nil => simp [alistInsert, alookup]
  | cons p rest ih =>
    by_cases h : p.1 = k
    · simp [alistInsert, alookup, h]
    · simpa [alistInsert, alookup, h] using ih

theorem alistInsert_eq_append [DecidableEq κ] (l : List (κ × α)) (k : κ)
    (v : α) (h : alookup l k = Option.none) :
    alistInsert l k v = l ++ [(k, v)] := by
  induction l with
  | nil => simp [alistInsert]
  | cons p rest ih =>
    by_cases hk : p.1 = k
    · simp [alookup, hk] at h
    · simp only [alookup, hk, if_neg hk, ite_false] at h
      simp [alistInsert, hk, ih h]

theorem not_mem_keys_of_alookup_eq_none [DecidableEq κ] (l : List (κ × α))
    (k : κ) (h : alookup l k = Option.none) : k ∉ l.map Prod.fst := by
  induction l with
  | nil => simp
  | cons p rest ih =>
    by_cases hk : p.1 = k
    · simp [alookup, hk] at h
    · simp only [alookup, hk, if_neg hk, ite_false] at h
      simp only [List.map_cons, List.mem_cons]
      rintro (rfl | hmem)
      · exact hk rfl
      · exact ih h hmem

theorem alistUpdate_alistInsert_fresh [DecidableEq κ] (l : List (κ × α))
    (k : κ) (v : α) (f : α → α) (h : alookup l k = Option.none) :
    alistUpdate (alistInsert l k v) k f = alistInsert l k (f v) := by
  induction l with
  | nil => simp [alistInsert, alistUpdate]
  | cons p rest ih =>
    by_cases hk : p.1 = k
    · simp [alookup, hk] at h
    · simp only [alookup, hk, if_neg hk, ite_false] at h
      simp [alistInsert, alistUpdate, hk, ih h]

theorem keys_alistUpdate [DecidableEq κ] (l : List (κ × α)) (k : κ)
    (f : α → α) : (alistUpdate l k f).map Prod.fst = l.map Prod.fst := by
  induction l with
  | nil => simp [alistUpdate]
  | cons p rest ih =>
    by_cases hk : p.1 = k <;> simp [alistUpdate, hk] at ih ⊢ <;> exact ih

theorem alookup_eq_none_of_not_mem [DecidableEq κ] (l : List (κ × α)) (k : κ)
    (h : k ∉ l.map Prod.fst) : alookup l k = Option.none := by
  induction l with
  | nil => rfl
  | cons p rest ih =>
    simp only [List.map_cons, List.mem_cons, not_or] at h
    have hk : p.1 ≠ k := fun he => h.1 he.symm
    simp [alookup, hk, ih h.2]

theorem alookup_alistErase_self [DecidableEq κ] (l : List (κ × α)) (k : κ)
    (hnodup : (l.map Prod.fst).Nodup) :
    alookup (alistErase l k) k = Option.none := by
  induction l with
  | nil => rfl
  | cons p rest ih =>
    simp only [List.map_cons, List.nodup_cons] at hnodup
    by_cases hk : p.1 = k
    · subst hk
      simp only [alistErase, if_pos rfl, ite_true]
      exact alookup_eq_none_of_not_mem rest p.1 hnodup.1
    · simp only [alistErase, hk, if_neg hk, ite_false, alookup]
      exact ih hnodup.2

/-! Claim theorems. -/

/-- C2: the claim states that a `get_or_spawn` failure leaves no pool entry
and terminates any started process.  Evaluating `GW.spawn_container` on a
fresh identifier whose subprocess emits nothing (EOF at the handshake read)
shows the opposite: the call raises, yet the entry for "srv" is still in
`active_processes`, the launched process received no SIGTERM, and exactly
one process was launched. -/
theorem spawn_handshake_failure_keeps_entry :
    (GW.spawn_container emptyWorld "srv" cfg0 true []).2
        = Except.error (GErr.noResponse "srv") ∧
    alookup (GW.spawn_container emptyWorld "srv" cfg0 true []).1.active "srv"
        = Option.some { pid := 0, server_id := "srv", started_at := 0, last_used := 0 } ∧
    (GW.spawn_container emptyWorld "srv" cfg0 true []).1.sigterms = [] ∧
    (GW.spawn_container emptyWorld "srv" cfg0 true []).1.launched.length = 1 :=
  ⟨rfl, rfl, rfl, rfl⟩

/-- C3: the claim states that a response frame whose correlation id differs
from the request id closes the session and fails the call with
`ProtocolError`.  Evaluating `GW.execute_tool` against a subprocess that
answers the id-1001 request with an id-999 frame shows the code returns that
result payload of that frame to the caller and keeps the pool entry alive. -/
theorem mismatched_id_response_returned_to_caller :
    (GW.execute_tool reg0 1000 (wReady [Option.some resp999]) "srv" "echo"
        Args.none loadsNone true []).2.2
      = Except.ok (Json.str "spoofed") ∧
    Json.getField (mkToolRequest "echo" (Json.obj []) 1001) "id"
      = Option.some (Json.num 1001) ∧
    Json.getField resp999 "id" = Option.some (Json.num 999) ∧
    alookup (GW.execute_tool reg0 1000 (wReady [Option.some resp999]) "srv"
        "echo" Args.none loadsNone true []).1.active "srv"
      = Option.some { sp0 with last_used := 7 } :=
  ⟨rfl, rfl, rfl, rfl⟩

/-- C4: the claim states that no tools/call frame is written before the
initialize/initialized handshake completes.  Evaluating the STDIO variant
`SD.execute_tool` on a fresh identifier shows the very first (and only)
frame written to the new subprocess is the tools/call request: no initialize
request or initialized notification is ever sent by this variant. -/
theorem stdio_first_frame_is_tools_call :
    (SD.execute_tool reg0 0 emptyWorld "srv" "t" Args.none loadsNone true
        [Option.some (Json.obj [("id", Json.num 1), ("result", Json.obj [])])]).1.wire
      = [(0, mkToolRequest "t" (Json.obj []) 1)] ∧
    Json.getField (mkToolRequest "t" (Json.obj []) 1) "method"
      = Option.some (Json.str "tools/call") :=
  ⟨rfl, rfl⟩

/-- C5: the claim states that transport EOF fails the call with
`ConnectionLost`, removes the pool entry, and makes the next call relaunch.
Evaluating `GW.execute_tool` against a subprocess that closed stdout shows
the call raises the generic no-response error but the entry stays in the
pool, and the next `get_or_spawn` returns that same dead entry (same start
timestamp, no new launch) instead of relaunching. -/
theorem eof_keeps_dead_entry :
    (GW.execute_tool reg0 1000 (wReady []) "srv" "t" Args.none loadsNone
        true []).2.2
      = Except.error (GErr.noResponse "srv") ∧
    alookup (GW.execute_tool reg0 1000 (wReady []) "srv" "t" Args.none
        loadsNone true []).1.active "srv"
      = Option.some { sp0 with last_used := 7 } ∧
    GW.get_or_spawn (GW.execute_tool reg0 1000 (wReady []) "srv" "t"
        Args.none loadsNone true []).1 "srv" cfg0 true [Option.some (Json.obj [])]
      = ((GW.execute_tool reg0 1000 (wReady []) "srv" "t" Args.none loadsNone
          true []).1,
         Except.ok { sp0 with last_used := 7 }) ∧
    (GW.execute_tool reg0 1000 (wReady []) "srv" "t" Args.none loadsNone
        true []).1.launched.length = 1 :=
  ⟨rfl, rfl, rfl, rfl⟩

/-- C6: the claim states that an error terminating one idle entry does not
prevent terminating the other eligible entries in the same tick.  Evaluating
one `idle_monitor` tick on a pool where both "a" and "b" exceeded their idle
timeout, with the termination of "a" (pid 0) raising on `wait(timeout=5)`,
shows "b" was eligible yet received no SIGTERM and stays in the pool: the
tick-level exception handler aborted the loop. -/
theorem idle_tick_error_aborts_remaining_terminations :
    GW.idleEligible reg2 1000 ("b", spB) = true ∧
    alookup (GW.idle_monitor_tick reg2 wAB 1000 (fun pid => pid == 1)).active "b"
      = Option.some spB ∧
    (GW.idle_monitor_tick reg2 wAB 1000 (fun pid => pid == 1)).sigterms = [0] :=
  ⟨rfl, rfl, rfl⟩

/-- C8 counterexample: the claim states that `stop_server` on an active
identifier removes the entry regardless of the exit outcome of the process and
returns status "stopped".  Evaluating it on an active entry whose process
does not exit within the 5 second `wait` shows the call raises instead of
returning "stopped" and the entry remains in the pool. -/
theorem stop_wait_timeout_keeps_entry :
    (GW.stop_server (wReady []) "srv" (fun _ => false)).2
      = Except.error (GErr.waitTimeout "srv") ∧
    alookup (GW.stop_server (wReady []) "srv" (fun _ => false)).1.active "srv"
      = Option.some sp0 :=
  ⟨rfl, rfl⟩

/-! Characterization lemmas for the embedded operations. -/

theorem GW.get_or_spawn_hit (w : World) (sid : String) (cfg : Config)
    (lk : Bool) (sc : List (Option Json)) (sp : ServerProcess)
    (h : alookup w.active sid = Option.some sp) :
    GW.get_or_spawn w sid cfg lk sc = (w, Except.ok sp) := by
  simp [GW.get_or_spawn, h]

theorem GW.send_message_ok (w : World) (sp : ServerProcess) (msg j : Json)
    (rest : List (Option Json))
    (h : alookup w.stdoutOf sp.pid = Option.some (Option.some j :: rest)) :
    GW.send_message w sp msg =
      ({ w with
          active := alistUpdate w.active sp.server_id
            (fun p => { p with last_used := w.clock }),
          wire := w.wire ++ [(sp.pid, msg)],
          stdoutOf := alistInsert w.stdoutOf sp.pid rest }, Except.ok j) := by
  simp [GW.send_message, h]

theorem GW.send_message_wire (w : World) (sp : ServerProcess) (msg : Json) :
    (GW.send_message w sp msg).1.wire = w.wire ++ [(sp.pid, msg)] := by
  simp only [GW.send_message]
  split
  · rfl
  · rfl
  · split <;> rfl

theorem GW.runCalls_hit (sid : String) (cfg : Config) (lk : Bool)
    (sc : List (Option Json)) (n : Nat) (w : World) (sp : ServerProcess)
    (h : alookup w.active sid = Option.some sp) :
    GW.runCalls sid cfg lk sc n w = (w, List.replicate n (Except.ok sp)) := by
  induction n with
  | zero => simp [GW.runCalls]
  | succ k ih =>
    simp [GW.runCalls, GW.get_or_spawn_hit w sid cfg lk sc sp h, ih,
      List.replicate_succ]

theorem GW.spawn_container_ok (w : World) (sid : String) (cfg : Config)
    (j : Json) (rest : List (Option Json))
    (hfresh : alookup w.active sid = Option.none) :
    GW.spawn_container w sid cfg true (Option.some j :: rest) =
      ({ active := (alistInsert w.active sid
            { pid := w.nextPid, server_id := sid, started_at := w.clock,
              last_used := w.clock }),
         nextPid := w.nextPid + 1,
         launched := (w.launched ++ [(w.nextPid, dockerCmd cfg)]),
         stdoutOf := (alistInsert
            (alistInsert w.stdoutOf w.nextPid (Option.some j :: rest))
            w.nextPid rest),
         wire := (w.wire ++ [(w.nextPid, GW.initMessage),
            (w.nextPid, GW.initializedMessage)]),
         sigterms := w.sigterms,
         clock := w.clock },
       Except.ok ({ pid := w.nextPid, server_id := sid, started_at := w.clock, last_used := w.clock } : ServerProcess)) := by
  simp [GW.spawn_container, GW.initialize_connection, GW.send_message,
    alookup_alistInsert_self,
    alistUpdate_alistInsert_fresh w.active sid _ _ hfresh]

theorem SD.get_or_spawn_warm_hit (w : World) (sid : String) (cfg : Config)
    (lk : Bool) (sc : List (Option Json)) (sp : ServerProcess)
    (h : alookup w.active sid = Option.some sp) :
    SD.get_or_spawn w sid cfg lk sc
      = ({ w with active := (alistUpdate w.active sid
            (fun p => { p with last_used := w.clock })) },
         Except.ok { sp with last_used := w.clock }) := by
  simp [SD.get_or_spawn, h]

theorem SD.spawn_container_eq (w : World) (sid : String) (cfg : Config)
    (sc : List (Option Json)) :
    SD.spawn_container w sid cfg true sc =
      ({ active := (alistInsert w.active sid
            { pid := w.nextPid, server_id := sid, started_at := w.clock,
              last_used := w.clock }),
         nextPid := w.nextPid + 1,
         launched := (w.launched ++ [(w.nextPid, dockerCmd cfg)]),
         stdoutOf := (alistInsert w.stdoutOf w.nextPid sc),
         wire := w.wire,
         sigterms := w.sigterms,
         clock := w.clock },
       Except.ok ({ pid := w.nextPid, server_id := sid, started_at := w.clock, last_used := w.clock } : ServerProcess)) := by
  simp [SD.spawn_container]

theorem SD.runCalls_warm (sid : String) (cfg : Config) (lk : Bool)
    (sc : List (Option Json)) (m : Nat) (w : World) (sp : ServerProcess)
    (hhit : alookup w.active sid = Option.some sp)
    (hlu : sp.last_used = w.clock)
    (hupd : alistUpdate w.active sid
        (fun p => { p with last_used := w.clock }) = w.active) :
    SD.runCalls sid cfg lk sc m w = (w, List.replicate m (Except.ok sp)) := by
  induction m with
  | zero => simp [SD.runCalls]
  | succ k ih =>
    have hgos : SD.get_or_spawn w sid cfg lk sc = (w, Except.ok sp) := by
      rw [SD.get_or_spawn_warm_hit w sid cfg lk sc sp hhit, hupd]
      have hsp2 : ({ sp with last_used := w.clock } : ServerProcess) = sp := by
        rw [← hlu]
      rw [hsp2]
    simp only [SD.runCalls, hgos, ih, List.replicate_succ]

theorem SD.send_message_frame_ok (w : World) (sp : ServerProcess) (msg j : Json)
    (rest : List (Option Json))
    (h : alookup w.stdoutOf sp.pid = Option.some (Option.some j :: rest)) :
    SD.send_message w sp msg =
      ({ w with
          wire := (w.wire ++ [(sp.pid, msg)]),
          stdoutOf := (alistInsert w.stdoutOf sp.pid rest) }, j) := by
  simp [SD.send_message, h]

/-- C1: in both gateway variants, starting from a pool with no entry for an
identifier, N `get_or_spawn` calls with N at least 2 launch exactly one
subprocess, every call returns the identical `ServerProcess` (same pid,
same start timestamp), and that process is the unique pool entry for the
identifier; after every one of the N calls the pool keys are
duplicate-free, so at most one entry exists per identifier at every
reachable state of the run.  The call bodies contain no await point, so on
the single-threaded asyncio event loop N concurrent callers execute
exactly as such a sequence of whole calls. -/
theorem get_or_spawn_single_flight (w : World) (sid : String) (cfg : Config)
    (j : Json) (rest : List (Option Json)) (n : Nat) (hn : 2 ≤ n)
    (hfresh : alookup w.active sid = Option.none)
    (hnodup : (w.active.map Prod.fst).Nodup) :
    (((GW.runCalls sid cfg true (Option.some j :: rest) n w).1.launched.length
        = w.launched.length + 1) ∧
     (∃ sp : ServerProcess,
        (GW.runCalls sid cfg true (Option.some j :: rest) n w).2
          = List.replicate n (Except.ok sp) ∧
        sp.pid = w.nextPid ∧ sp.started_at = w.clock ∧
        alookup (GW.runCalls sid cfg true (Option.some j :: rest) n w).1.active
            sid = Option.some sp) ∧
     (∀ k : Nat,
        (((GW.runCalls sid cfg true (Option.some j :: rest) k w).1.active.map
          Prod.fst).Nodup))) ∧
    (((SD.runCalls sid cfg true (Option.some j :: rest) n w).1.launched.length
        = w.launched.length + 1) ∧
     (∃ sp : ServerProcess,
        (SD.runCalls sid cfg true (Option.some j :: rest) n w).2
          = List.replicate n (Except.ok sp) ∧
        sp.pid = w.nextPid ∧ sp.started_at = w.clock ∧
        alookup (SD.runCalls sid cfg true (Option.some j :: rest) n w).1.active
            sid = Option.some sp) ∧
     (∀ k : Nat,
        (((SD.runCalls sid cfg true (Option.some j :: rest) k w).1.active.map
          Prod.fst).Nodup))) := by
  obtain ⟨m, rfl⟩ : ∃ m, n = m + 1 := ⟨n - 1, by omega⟩
  set spv : ServerProcess := { pid := w.nextPid, server_id := sid, started_at := w.clock, last_used := w.clock } with hspv
  have hkeys : ((alistInsert w.active sid spv).map Prod.fst).Nodup := by
    rw [alistInsert_eq_append w.active sid spv hfresh]
    simp only [List.map_append, List.map_cons, List.map_nil]
    rw [List.nodup_append]
    refine ⟨hnodup, List.nodup_singleton sid, ?_⟩
    intro x hx hmem
    simp only [List.mem_singleton] at hmem
    subst hmem
    exact not_mem_keys_of_alookup_eq_none w.active x hfresh hx
  set W1 : World :=
    { active := (alistInsert w.active sid spv),
      nextPid := w.nextPid + 1,
      launched := (w.launched ++ [(w.nextPid, dockerCmd cfg)]),
      stdoutOf := (alistInsert
        (alistInsert w.stdoutOf w.nextPid (Option.some j :: rest))
        w.nextPid rest),
      wire := (w.wire ++ [(w.nextPid, GW.initMessage),
        (w.nextPid, GW.initializedMessage)]),
      sigterms := w.sigterms,
      clock := w.clock } with hW1
  set W2 : World :=
    { active := (alistInsert w.active sid spv),
      nextPid := w.nextPid + 1,
      launched := (w.launched ++ [(w.nextPid, dockerCmd cfg)]),
      stdoutOf := (alistInsert w.stdoutOf w.nextPid (Option.some j :: rest)),
      wire := w.wire,
      sigterms := w.sigterms,
      clock := w.clock } with hW2
  have hlook1 : alookup W1.active sid = Option.some spv := by
    rw [hW1]
    exact alookup_alistInsert_self w.active sid spv
  have hlook2 : alookup W2.active sid = Option.some spv := by
    rw [hW2]
    exact alookup_alistInsert_self w.active sid spv
  have hall1 : ∀ k : Nat,
      GW.runCalls sid cfg true (Option.some j :: rest) (k + 1) w
        = (W1, List.replicate (k + 1) (Except.ok spv)) := by
    intro k
    have h1 : GW.get_or_spawn w sid cfg true (Option.some j :: rest)
        = (W1, Except.ok spv) := by
      simp only [GW.get_or_spawn, hfresh]
      exact GW.spawn_container_ok w sid cfg j rest hfresh
    simp only [GW.runCalls, h1,
      GW.runCalls_hit sid cfg true (Option.some j :: rest) k W1 spv hlook1,
      List.replicate_succ]
  have hupd2 : alistUpdate W2.active sid
      (fun p => { p with last_used := W2.clock }) = W2.active := by
    simp only [hW2]
    rw [alistUpdate_alistInsert_fresh w.active sid spv _ hfresh]
  have hall2 : ∀ k : Nat,
      SD.runCalls sid cfg true (Option.some j :: rest) (k + 1) w
        = (W2, List.replicate (k + 1) (Except.ok spv)) := by
    intro k
    have h2 : SD.get_or_spawn w sid cfg true (Option.some j :: rest)
        = (W2, Except.ok spv) := by
      simp only [SD.get_or_spawn, hfresh]
      exact SD.spawn_container_eq w sid cfg (Option.some j :: rest)
    simp only [SD.runCalls, h2,
      SD.runCalls_warm sid cfg true (Option.some j :: rest) k W2 spv hlook2
        rfl hupd2,
      List.replicate_succ]
  refine ⟨⟨?_, ⟨spv, ?_, rfl, rfl, ?_⟩, ?_⟩, ⟨?_, ⟨spv, ?_, rfl, rfl, ?_⟩, ?_⟩⟩
  · rw [hall1 m, hW1]
    simp
  · rw [hall1 m]
  · rw [hall1 m]
    exact hlook1
  · intro k
    cases k with
    | zero => simpa [GW.runCalls] using hnodup
    | succ k2 =>
      rw [hall1 k2, hW1]
      exact hkeys
  · rw [hall2 m, hW2]
    simp
  · rw [hall2 m]
  · rw [hall2 m]
    exact hlook2
  · intro k
    cases k with
    | zero => simpa [SD.runCalls] using hnodup
    | succ k2 =>
      rw [hall2 k2, hW2]
      exact hkeys

/-- C1 witness: two calls against the empty pool launch exactly one
subprocess, in both gateway variants. -/
theorem get_or_spawn_single_flight_witness :
    2 ≤ 2 ∧
    ((GW.runCalls "srv" cfg0 true [Option.some (Json.obj [])] 2
        emptyWorld).1.launched.length = emptyWorld.launched.length + 1) ∧
    ((SD.runCalls "srv" cfg0 true [Option.some (Json.obj [])] 2
        emptyWorld).1.launched.length = emptyWorld.launched.length + 1) :=
  ⟨by decide,
   (get_or_spawn_single_flight emptyWorld "srv" cfg0 (Json.obj []) [] 2
      (by decide) rfl (by decide)).1.1,
   (get_or_spawn_single_flight emptyWorld "srv" cfg0 (Json.obj []) [] 2
      (by decide) rfl (by decide)).2.1⟩

theorem SD.send_message_wire_append (w : World) (sp : ServerProcess) (msg : Json) :
    (SD.send_message w sp msg).1.wire = w.wire ++ [(sp.pid, msg)] := by
  simp only [SD.send_message]
  split
  · rfl
  · rfl
  · split <;> rfl

theorem GW.execute_tool_wire_hit (reg : List (String × Config)) (ctr : Nat)
    (w : World) (sid tool : String) (arguments : Args)
    (loads : String → Option Json) (lk : Bool) (sc : List (Option Json))
    (cfg : Config) (sp : ServerProcess) (argOpt : Option Json)
    (hreg : alookup reg sid = Option.some cfg)
    (hargs : processArgs loads arguments = Except.ok argOpt)
    (hpool : alookup w.active sid = Option.some sp) :
    (GW.execute_tool reg ctr w sid tool arguments loads lk sc).1.wire
      = w.wire ++ [(sp.pid, mkToolRequest tool (pyOrEmpty argOpt) (ctr + 1))] := by
  have hgos := GW.get_or_spawn_hit w sid cfg lk sc sp hpool
  have hwire := GW.send_message_wire w sp
    (mkToolRequest tool (pyOrEmpty argOpt) (ctr + 1))
  simp only [GW.execute_tool, hreg, hargs, hgos]
  rcases hsm : GW.send_message w sp
      (mkToolRequest tool (pyOrEmpty argOpt) (ctr + 1)) with ⟨w2, res⟩
  rw [hsm] at hwire
  cases res with
  | error e => simpa using hwire
  | ok response =>
    cases hresp : Json.getField response "error" <;> simpa [hresp] using hwire

theorem SD.execute_tool_wire_warm (reg : List (String × Config)) (ctr : Nat)
    (w : World) (sid tool : String) (arguments : Args)
    (loads : String → Option Json) (lk : Bool) (sc : List (Option Json))
    (cfg : Config) (sp : ServerProcess) (argOpt : Option Json)
    (hreg : alookup reg sid = Option.some cfg)
    (hargs : processArgs loads arguments = Except.ok argOpt)
    (hpool : alookup w.active sid = Option.some sp) :
    (SD.execute_tool reg ctr w sid tool arguments loads lk sc).1.wire
      = w.wire ++ [(sp.pid, mkToolRequest tool (pyOrEmpty argOpt) (ctr + 1))] := by
  have hgos := SD.get_or_spawn_warm_hit w sid cfg lk sc sp hpool
  have hwire := SD.send_message_wire_append
    ({ w with active := (alistUpdate w.active sid
        (fun p => { p with last_used := w.clock })) })
    { sp with last_used := w.clock }
    (mkToolRequest tool (pyOrEmpty argOpt) (ctr + 1))
  simp only [SD.execute_tool, hreg, hargs, hgos]
  rcases hsm : SD.send_message
      ({ w with active := (alistUpdate w.active sid
          (fun p => { p with last_used := w.clock })) })
      { sp with last_used := w.clock }
      (mkToolRequest tool (pyOrEmpty argOpt) (ctr + 1)) with ⟨w2, response⟩
  rw [hsm] at hwire
  cases hresp : Json.getField response "error" <;> simpa [hresp] using hwire

/-- C7: in both gateway variants, for an established subprocess whose next
response frame is `resp`, `execute_tool` returns the result payload of the
response unchanged when `resp` has no error member, and raises carrying the
error object of the response (its code and message) when `resp` has one. -/
theorem execute_tool_result_and_error_passthrough
    (reg : List (String × Config)) (ctr : Nat) (w : World)
    (sid tool : String) (cfg : Config) (sp : ServerProcess) (resp : Json)
    (rest : List (Option Json)) (arguments : Args)
    (loads : String → Option Json) (argOpt : Option Json) (lk : Bool)
    (sc : List (Option Json))
    (hreg : alookup reg sid = Option.some cfg)
    (hargs : processArgs loads arguments = Except.ok argOpt)
    (hpool : alookup w.active sid = Option.some sp)
    (hout : alookup w.stdoutOf sp.pid = Option.some (Option.some resp :: rest)) :
    (∀ r : Json, Json.getField resp "error" = Option.none →
        Json.getField resp "result" = Option.some r →
        (GW.execute_tool reg ctr w sid tool arguments loads lk sc).2.2
          = Except.ok r) ∧
    (∀ e : Json, Json.getField resp "error" = Option.some e →
        (GW.execute_tool reg ctr w sid tool arguments loads lk sc).2.2
          = Except.error (GErr.toolError e)) ∧
    (∀ r : Json, Json.getField resp "error" = Option.none →
        Json.getField resp "result" = Option.some r →
        (SD.execute_tool reg ctr w sid tool arguments loads lk sc).2.2
          = Except.ok r) ∧
    (∀ e : Json, Json.getField resp "error" = Option.some e →
        (SD.execute_tool reg ctr w sid tool arguments loads lk sc).2.2
          = Except.error (GErr.toolError e)) := by
  have hgos := GW.get_or_spawn_hit w sid cfg lk sc sp hpool
  have hsm := GW.send_message_ok w sp
    (mkToolRequest tool (pyOrEmpty argOpt) (ctr + 1)) resp rest hout
  have hgos2 := SD.get_or_spawn_warm_hit w sid cfg lk sc sp hpool
  have hsm2 := SD.send_message_frame_ok
    ({ w with active := (alistUpdate w.active sid
        (fun p => { p with last_used := w.clock })) })
    ({ sp with last_used := w.clock })
    (mkToolRequest tool (pyOrEmpty argOpt) (ctr + 1)) resp rest hout
  refine ⟨?_, ?_, ?_, ?_⟩
  · intro r hne hr
    simp [GW.execute_tool, hreg, hargs, hgos, hsm, hne, hr]
  · intro e he
    simp [GW.execute_tool, hreg, hargs, hgos, hsm, he]
  · intro r hne hr
    simp [SD.execute_tool, hreg, hargs, hgos2, hsm2, hne, hr]
  · intro e he
    simp [SD.execute_tool, hreg, hargs, hgos2, hsm2, he]

/-- C7 witness: a stub reply carrying error code -32601 makes the call
raise with exactly that error object, in both gateway variants. -/
theorem execute_tool_error_passthrough_witness :
    (GW.execute_tool reg0 1000 (wReady [Option.some respErr]) "srv" "t"
        Args.none loadsNone true []).2.2
      = Except.error (GErr.toolError (Json.obj [("code", Json.num (-32601)),
          ("message", Json.str "unknown tool")])) ∧
    (SD.execute_tool reg0 1000 (wReady [Option.some respErr]) "srv" "t"
        Args.none loadsNone true []).2.2
      = Except.error (GErr.toolError (Json.obj [("code", Json.num (-32601)),
          ("message", Json.str "unknown tool")])) :=
  ⟨(execute_tool_result_and_error_passthrough reg0 1000
      (wReady [Option.some respErr]) "srv" "t" cfg0 sp0 respErr []
      Args.none loadsNone Option.none true [] rfl rfl rfl rfl).2.1
    (Json.obj [("code", Json.num (-32601)), ("message", Json.str "unknown tool")])
    rfl,
   (execute_tool_result_and_error_passthrough reg0 1000
      (wReady [Option.some respErr]) "srv" "t" cfg0 sp0 respErr []
      Args.none loadsNone Option.none true [] rfl rfl rfl rfl).2.2.2
    (Json.obj [("code", Json.num (-32601)), ("message", Json.str "unknown tool")])
    rfl⟩

/-- C8 (amended): `stop_server` on an active identifier sends SIGTERM and,
provided the process exits within the bounded 5 second wait, removes the
entry from the pool and returns status "stopped"; an immediate second
`stop_server` then returns status "not_running" without changing the state;
`stop_server` on an identifier with no active entry returns "not_running"
without raising and without touching the state.  (If the wait times out the
error propagates and the entry remains, see the counterexample.) -/
theorem stop_server_spec (w : World) (sid : String) (sp : ServerProcess)
    (exits : Nat → Bool)
    (hpool : alookup w.active sid = Option.some sp)
    (hnodup : (w.active.map Prod.fst).Nodup)
    (hex : exits sp.pid = true) :
    (GW.stop_server w sid exits).2
      = Except.ok (Json.obj [("status", Json.str "stopped"),
          ("server_id", Json.str sid)]) ∧
    (GW.stop_server w sid exits).1.sigterms = w.sigterms ++ [sp.pid] ∧
    alookup (GW.stop_server w sid exits).1.active sid = Option.none ∧
    GW.stop_server (GW.stop_server w sid exits).1 sid exits
      = ((GW.stop_server w sid exits).1,
         Except.ok (Json.obj [("status", Json.str "not_running"),
           ("server_id", Json.str sid)])) ∧
    (∀ sid2 : String, alookup w.active sid2 = Option.none →
        GW.stop_server w sid2 exits
          = (w, Except.ok (Json.obj [("status", Json.str "not_running"),
              ("server_id", Json.str sid2)]))) := by
  have hterm : GW.terminate_container w sid exits
      = ({ w with
            sigterms := (w.sigterms ++ [sp.pid]),
            active := (alistErase w.active sid) }, Except.ok ()) := by
    simp [GW.terminate_container, hpool, hex]
  have hstop : GW.stop_server w sid exits
      = ({ w with
            sigterms := (w.sigterms ++ [sp.pid]),
            active := (alistErase w.active sid) },
         Except.ok (Json.obj [("status", Json.str "stopped"),
           ("server_id", Json.str sid)])) := by
    simp [GW.stop_server, hpool, hterm]
  have herase : alookup (alistErase w.active sid) sid = Option.none :=
    alookup_alistErase_self w.active sid hnodup
  refine ⟨?_, ?_, ?_, ?_, ?_⟩
  · rw [hstop]
  · rw [hstop]
  · rw [hstop]
    exact herase
  · rw [hstop]
    simp [GW.stop_server, herase]
  · intro sid2 h2
    simp [GW.stop_server, h2]

/-- C8 witness: stopping the active "srv" whose process exits in time
returns "stopped". -/
theorem stop_server_spec_witness :
    ((fun _ => true) sp0.pid = true) ∧
    (GW.stop_server (wReady []) "srv" (fun _ => true)).2
      = Except.ok (Json.obj [("status", Json.str "stopped"),
          ("server_id", Json.str "srv")]) :=
  ⟨rfl,
   (stop_server_spec (wReady []) "srv" sp0 (fun _ => true) rfl (by decide)
      rfl).1⟩

/-- C9: caller-input validation precedes all subprocess interaction, in both
gateway variants: an identifier absent from the registry fails with the
unknown-server error, and (for a registered identifier) an arguments string
that fails to parse as JSON fails with the invalid-JSON error; in both cases
the returned state is exactly the input state — no process spawned, no frame
written, pool untouched — and the request counter is unchanged. -/
theorem execute_validation_precedes_subprocess_io
    (reg : List (String × Config)) (ctr : Nat) (w : World)
    (sid tool : String) (loads : String → Option Json) (lk : Bool)
    (sc : List (Option Json)) (s : String) :
    (∀ a : Args, alookup reg sid = Option.none →
        GW.execute_tool reg ctr w sid tool a loads lk sc
          = (w, ctr, Except.error (GErr.unknownServer sid)) ∧
        SD.execute_tool reg ctr w sid tool a loads lk sc
          = (w, ctr, Except.error (GErr.unknownServer sid))) ∧
    (∀ cfg : Config, alookup reg sid = Option.some cfg →
        loads s = Option.none →
        GW.execute_tool reg ctr w sid tool (Args.str s) loads lk sc
          = (w, ctr, Except.error (GErr.invalidJsonArgs s)) ∧
        SD.execute_tool reg ctr w sid tool (Args.str s) loads lk sc
          = (w, ctr, Except.error (GErr.invalidJsonArgs s))) := by
  constructor
  · intro a hmiss
    constructor
    · simp [GW.execute_tool, hmiss]
    · simp [SD.execute_tool, hmiss]
  · intro cfg hhit hbad
    constructor
    · simp [GW.execute_tool, processArgs, hhit, hbad]
    · simp [SD.execute_tool, processArgs, hhit, hbad]

/-- C9 witness: executing against the unregistered identifier "x" fails
with the unknown-server error and leaves the world untouched. -/
theorem execute_validation_witness :
    GW.execute_tool reg0 5 emptyWorld "x" "t" Args.none loadsNone true []
      = (emptyWorld, 5, Except.error (GErr.unknownServer "x")) :=
  ((execute_validation_precedes_subprocess_io reg0 5 emptyWorld "x" "t"
      loadsNone true [] "zz").1 Args.none rfl).1

/-- C10: in both gateway variants, an arguments value that is neither None,
nor a dict, nor a string is rejected with the argument-type error before any
subprocess is spawned or contacted (the state is returned unchanged); and
when arguments is None, the forwarded tools/call request carries the empty
object as its params.arguments field. -/
theorem execute_args_type_check_and_none_default
    (reg : List (String × Config)) (ctr : Nat) (w : World)
    (sid tool : String) (loads : String → Option Json) (lk : Bool)
    (sc : List (Option Json)) :
    (∀ cfg : Config, alookup reg sid = Option.some cfg →
        GW.execute_tool reg ctr w sid tool Args.other loads lk sc
          = (w, ctr, Except.error GErr.argsTypeError) ∧
        SD.execute_tool reg ctr w sid tool Args.other loads lk sc
          = (w, ctr, Except.error GErr.argsTypeError)) ∧
    (∀ (cfg : Config) (sp : ServerProcess),
        alookup reg sid = Option.some cfg →
        alookup w.active sid = Option.some sp →
        (GW.execute_tool reg ctr w sid tool Args.none loads lk sc).1.wire
          = w.wire ++ [(sp.pid, mkToolRequest tool (Json.obj []) (ctr + 1))] ∧
        (SD.execute_tool reg ctr w sid tool Args.none loads lk sc).1.wire
          = w.wire ++ [(sp.pid, mkToolRequest tool (Json.obj []) (ctr + 1))] ∧
        Json.getField (mkToolRequest tool (Json.obj []) (ctr + 1)) "params"
          = Option.some (Json.obj [("name", Json.str tool),
              ("arguments", Json.obj [])])) := by
  constructor
  · intro cfg hreg
    constructor
    · simp [GW.execute_tool, processArgs, hreg]
    · simp [SD.execute_tool, processArgs, hreg]
  · intro cfg sp hreg hpool
    have h1 := GW.execute_tool_wire_hit reg ctr w sid tool Args.none loads lk
      sc cfg sp Option.none hreg rfl hpool
    have h2 := SD.execute_tool_wire_warm reg ctr w sid tool Args.none loads lk
      sc cfg sp Option.none hreg rfl hpool
    refine ⟨?_, ?_, rfl⟩
    · simpa [pyOrEmpty] using h1
    · simpa [pyOrEmpty] using h2

/-- C10 witness: a non-dict, non-string, non-None arguments value is
rejected before any subprocess interaction. -/
theorem execute_args_type_check_witness :
    GW.execute_tool reg0 7 emptyWorld "srv" "t" Args.other loadsNone true []
      = (emptyWorld, 7, Except.error GErr.argsTypeError) :=
  ((execute_args_type_check_and_none_default reg0 7 emptyWorld "srv" "t"
      loadsNone true []).1 cfg0 rfl).1
